import Mathlib

/-!
# msgvault-desktop — verification of the reducer core

A shallow embedding of the Model-View-Update core of the msgvault-desktop
client: the data model (`src/src/api/types.rs`, `src/src/model/*.rs`,
`src/src/error.rs`), the navigation stack (`src/src/model/navigation.rs`)
and the reducer (`src/src/update/mod.rs`, function `handle`).

Conventions of the embedding:
* Rust `i64`/`u16`/`i32` become `Int`/`Nat`/`Int`; `usize` becomes `Nat`.
* Rust `Result<T, E>` becomes `Except E T` (`Ok` ↦ `Except.ok`,
  `Err` ↦ `Except.error`).
* `chrono::DateTime<Utc>` becomes `Int` (an abstract timestamp; no claim
  computes with dates), `PathBuf` becomes `String`, and the `f32` download
  progress becomes `Rat` (no claim computes with it either).
* `HashSet<i64>` becomes `Finset Int`; `HashMap` becomes an association
  list.
* The reducer's `&mut AppState` plus returned `Task<Message>` becomes a
  pure function `AppState → Message → AppState × List Cmd`, where
  `Task::none` is `[]`, `Task::done m` is `[Cmd.done m]`,
  `Task::perform fut wrap` is `[Cmd.perform call wrap]` (the async work
  and the event constructor its result is wrapped into), and
  `Task::batch` is list concatenation.
-/

namespace MsgVault

/-- View types for aggregation, from `src/src/api/types.rs` (`enum ViewType`). -/
inductive ViewType
  | Senders
  | SenderNames
  | Recipients
  | RecipientNames
  | Domains
  | Labels
  | Time
deriving DecidableEq

/-- Rust `ViewType::as_str`, from `src/src/api/types.rs`. -/
def ViewType.asStr : ViewType → String
  | .Senders => "senders"
  | .SenderNames => "sender_names"
  | .Recipients => "recipients"
  | .RecipientNames => "recipient_names"
  | .Domains => "domains"
  | .Labels => "labels"
  | .Time => "time"

/-- Rust `ViewType::display_name`, from `src/src/api/types.rs`. -/
def ViewType.displayName : ViewType → String
  | .Senders => "Senders"
  | .SenderNames => "Sender Names"
  | .Recipients => "Recipients"
  | .RecipientNames => "Recipient Names"
  | .Domains => "Domains"
  | .Labels => "Labels"
  | .Time => "Time"

/-- Sort fields for aggregates, from `src/src/api/types.rs` (`enum SortField`). -/
inductive SortField
  | Count
  | Size
  | AttachmentSize
  | Name
deriving DecidableEq

/-- Sort direction, from `src/src/api/types.rs` (`enum SortDirection`). -/
inductive SortDirection
  | Desc
  | Asc
deriving DecidableEq

/-- Health check response, from `src/src/api/types.rs`. -/
structure HealthResponse where
  status : String
deriving DecidableEq

/-- Archive statistics response, from `src/src/api/types.rs`. -/
structure StatsResponse where
  total_messages : Int
  total_threads : Int
  total_accounts : Int
  total_labels : Int
  total_attachments : Int
  database_size_bytes : Int
deriving DecidableEq

/-- Single row in an aggregate view, from `src/src/api/types.rs`. -/
structure AggregateRow where
  key : String
  count : Int
  total_size : Int
  attachment_size : Int
  attachment_count : Int
  total_unique : Int
deriving DecidableEq

/-- Aggregate response, from `src/src/api/types.rs`. -/
structure AggregateResponse where
  view_type : String
  rows : List AggregateRow
deriving DecidableEq

/-- Message summary for list views, from `src/src/api/types.rs`. -/
structure MessageSummary where
  id : Int
  subject : String
  snippet : String
  from_email : String
  from_name : Option String
  sent_at : Int
  size_bytes : Int
  has_attachments : Bool
  labels : List String
deriving DecidableEq

/-- Attachment metadata, from `src/src/api/types.rs`. -/
structure Attachment where
  filename : String
  mime_type : String
  size_bytes : Int
deriving DecidableEq

/-- Full message detail, from `src/src/api/types.rs` (`struct MessageDetail`). -/
structure MessageDetail where
  id : Int
  subject : String
  from_addr : String
  «to» : List String
  cc : List String
  bcc : List String
  sent_at : Int
  body : String
  labels : List String
  attachments : List Attachment
deriving DecidableEq

/-- Paginated message list response, from `src/src/api/types.rs`. -/
structure MessageListResponse where
  total : Int
  page : Int
  page_size : Int
  messages : List MessageSummary
deriving DecidableEq

/-- Search response, from `src/src/api/types.rs`. -/
structure SearchResponse where
  query : String
  total : Int
  messages : List MessageSummary
deriving DecidableEq

/-- Possible sync states, from `src/src/api/types.rs` (`enum SyncState`). -/
inductive SyncState
  | Idle
  | Running
  | Paused
  | Error
deriving DecidableEq

/-- Sync status for a single account, from `src/src/api/types.rs`. -/
structure AccountSyncStatus where
  email : String
  display_name : Option String
  status : SyncState
  last_sync_at : Option String
  next_sync_at : Option String
  messages_synced : Option Int
  error : Option String
deriving DecidableEq

/-- Scheduler status for all accounts, from `src/src/api/types.rs`. -/
structure SchedulerStatus where
  accounts : List AccountSyncStatus
deriving DecidableEq

/-- Response from triggering a sync, from `src/src/api/types.rs`. -/
structure SyncTriggerResponse where
  message : String
deriving DecidableEq

/-- Response from initiating the OAuth flow, from `src/src/api/types.rs`. -/
structure OAuthInitResponse where
  auth_url : String
  device_flow : Bool
  user_code : Option String
  verification_url : Option String
  poll_interval : Option Int
deriving DecidableEq

/-- Device flow states, from `src/src/api/types.rs` (`enum DeviceFlowState`). -/
inductive DeviceFlowState
  | Pending
  | Complete
  | Expired
  | Error
deriving DecidableEq

/-- Device flow status, from `src/src/api/types.rs` (`struct DeviceFlowStatus`). -/
structure DeviceFlowStatus where
  status : DeviceFlowState
  error : Option String
deriving DecidableEq

/-- Response from removing an account, from `src/src/api/types.rs`. -/
structure RemoveAccountResponse where
  message : String
deriving DecidableEq

/-- Application-level errors, from `src/src/error.rs` (`enum AppError`). -/
inductive AppError
  | ConnectionFailed (msg : String)
  | ApiError (status : Nat) (message : String)
  | ConfigError (msg : String)
  | RequestFailed (msg : String)
deriving DecidableEq

/-- The `Display` rendering of `AppError` produced by the `thiserror`
attributes in `src/src/error.rs`; this is what `e.to_string()` yields in
the reducer's `Err` arms. -/
def AppError.toString : AppError → String
  | .ConnectionFailed m => "Connection failed: " ++ m
  | .ApiError st m => "API error (" ++ Nat.repr st ++ "): " ++ m
  | .ConfigError m => "Configuration error: " ++ m
  | .RequestFailed m => "Request failed: " ++ m

/-- Application settings persisted to disk, from `src/src/config/mod.rs`. -/
structure Settings where
  server_url : String
  api_key : String
  allow_insecure : Bool
deriving DecidableEq

/-- The view/screen enum exactly as defined in the snapshot's
`src/src/model/navigation.rs` lines 9–37 (`enum ViewLevel`): six cases.
Kept under a separate name because the reducer in `src/src/update/mod.rs`
additionally constructs `ViewLevel::Thread`, `ViewLevel::Sync`,
`ViewLevel::Accounts` and `ViewLevel::Settings`, which this enum does not
have — the two files of the snapshot contradict each other. -/
inductive ViewLevelNav
  | Dashboard
  | Aggregates (view_type : ViewType)
  | SubAggregates (parent_view_type : ViewType) (parent_key : String) (view_type : ViewType)
  | Messages (filter_description : String)
  | MessageDetail (message_id : Int)
  | Search
deriving DecidableEq

/-- The view/screen enum as required by the reducer: the six variants of
`src/src/model/navigation.rs` (`enum ViewLevel`) extended with the four
variants `Thread`, `Sync`, `Accounts`, `Settings` that
`src/src/update/mod.rs` pattern-matches on and constructs (lines 410, 434,
578, 650, 663, 858, 1446–1450); the snapshot's `navigation.rs` predates
them. This is the type all reducer-level definitions below use. -/
inductive ViewLevel
  | Dashboard
  | Aggregates (view_type : ViewType)
  | SubAggregates (parent_view_type : ViewType) (parent_key : String) (view_type : ViewType)
  | Messages (filter_description : String)
  | MessageDetail (message_id : Int)
  | Thread (thread_id : String)
  | Search
  | Sync
  | Accounts
  | Settings
deriving DecidableEq

/-- Navigation history stack, from `src/src/model/navigation.rs`
(`struct NavigationStack`): a list of previous views plus the current
view (an `Option`, exactly as in the source). -/
structure NavigationStack where
  history : List ViewLevel
  current : Option ViewLevel
deriving DecidableEq

namespace NavigationStack

/-- Rust `NavigationStack::new`, from `src/src/model/navigation.rs`. -/
def new : NavigationStack :=
  { history := [], current := some .Dashboard }

/-- Rust `NavigationStack::current`, from `src/src/model/navigation.rs`:
`self.current.as_ref().unwrap_or(&ViewLevel::Dashboard)`. Named
`currentView` because the field is already called `current`. -/
def currentView (s : NavigationStack) : ViewLevel :=
  s.current.getD .Dashboard

/-- Rust `NavigationStack::push`, from `src/src/model/navigation.rs`:
`if let Some(current) = self.current.take() { self.history.push(current) }`
then `self.current = Some(view)`. `Vec::push` appends at the end of the
list. -/
def push (s : NavigationStack) (view : ViewLevel) : NavigationStack :=
  match s.current with
  | some c => { history := s.history ++ [c], current := some view }
  | none => { history := s.history, current := some view }

/-- Rust `NavigationStack::pop`, from `src/src/model/navigation.rs`: removes
the last history entry into `current`, returning whether it moved. -/
def pop (s : NavigationStack) : NavigationStack × Bool :=
  match s.history.getLast? with
  | some previous => ({ history := s.history.dropLast, current := some previous }, true)
  | none => (s, false)

/-- Rust `NavigationStack::can_go_back`, from `src/src/model/navigation.rs`. -/
def can_go_back (s : NavigationStack) : Bool :=
  !s.history.isEmpty

/-- Rust `NavigationStack::jump_to`, from `src/src/model/navigation.rs`:
only when `index < self.history.len()`, truncate `history` to `index`
entries and set `current` to the element that was at `index`. -/
def jump_to (s : NavigationStack) (index : Nat) : NavigationStack :=
  if h : index < s.history.length then
    { history := s.history.take index, current := some (s.history.get ⟨index, h⟩) }
  else s

/-- Rust `NavigationStack::reset`, from `src/src/model/navigation.rs`. -/
def reset (_ : NavigationStack) : NavigationStack :=
  { history := [], current := some .Dashboard }

end NavigationStack

/-- One call of the `NavigationStack` mutating interface named by the
navigation claims: `push`, `pop` or `jump_to`. -/
inductive NavOp
  | push (v : ViewLevel)
  | pop
  | jumpTo (i : Nat)

/-- Apply one `NavOp` to a stack (`pop`'s boolean result is discarded,
as callers that only navigate do). -/
def NavigationStack.apply (s : NavigationStack) : NavOp → NavigationStack
  | .push v => s.push v
  | .pop => (s.pop).1
  | .jumpTo i => s.jump_to i

/-- Run a finite sequence of navigation calls starting from
`NavigationStack::new()`. -/
def runNavOps (ops : List NavOp) : NavigationStack :=
  ops.foldl NavigationStack.apply NavigationStack.new

/-- Connection status with the server, from `src/src/model/state.rs`
(`enum ConnectionStatus`). -/
inductive ConnectionStatus
  | Unknown
  | Connecting
  | Connected
  | Failed (msg : String)
deriving DecidableEq

/-- Loading state for async operations, from `src/src/model/state.rs`
(`enum LoadingState`). -/
inductive LoadingState
  | Idle
  | Loading
  | Error (msg : String)
deriving DecidableEq

/-- Thread/conversation state, from `src/src/model/thread.rs`
(`struct ThreadState`). -/
structure ThreadState where
  thread_id : Option String
  messages : List MessageDetail
  expanded : List Bool
  focused_index : Nat
  is_loading : Bool
deriving DecidableEq

namespace ThreadState

/-- Rust `ThreadState::clear`, from `src/src/model/thread.rs`. -/
def clear (_ : ThreadState) : ThreadState :=
  { thread_id := none, messages := [], expanded := [], focused_index := 0, is_loading := false }

/-- Rust `ThreadState::load_messages`, from `src/src/model/thread.rs`: all
messages collapsed except the last, which is expanded and focused; with
an empty list the focus is left untouched. -/
def load_messages (t : ThreadState) (thread_id : String) (msgs : List MessageDetail) : ThreadState :=
  let len := msgs.length
  let expandedInit := List.replicate len false
  if 0 < len then
    { thread_id := some thread_id, messages := msgs,
      expanded := expandedInit.set (len - 1) true,
      focused_index := len - 1, is_loading := false }
  else
    { thread_id := some thread_id, messages := msgs, expanded := expandedInit,
      focused_index := t.focused_index, is_loading := false }

end ThreadState

/-- Mode of email composition, from `src/src/model/compose.rs`. -/
inductive ComposeMode
  | New
  | Reply
  | ReplyAll
  | Forward
deriving DecidableEq

/-- Draft attachment, from `src/src/model/compose.rs`
(`struct AttachmentDraft`; `PathBuf` modelled as `String`). -/
structure AttachmentDraft where
  path : String
  filename : String
  size_bytes : Int
  mime_type : Option String
deriving DecidableEq

/-- State of the compose modal, from `src/src/model/compose.rs`
(`struct ComposeState`). -/
structure ComposeState where
  is_open : Bool
  mode : ComposeMode
  reply_to_id : Option Int
  from_account : String
  «to» : List String
  cc : List String
  bcc : List String
  subject : String
  body : String
  attachments : List AttachmentDraft
  is_sending : Bool
  send_error : Option String
  is_dirty : Bool
  show_cc_bcc : Bool
  to_input : String
  cc_input : String
  bcc_input : String
deriving DecidableEq

/-- Rust `ComposeState::close`, from `src/src/model/compose.rs`: resets every
field of the draft. -/
def ComposeState.close (_ : ComposeState) : ComposeState :=
  { is_open := false, mode := .New, reply_to_id := none, from_account := "",
    «to» := [], cc := [], bcc := [], subject := "", body := "", attachments := [],
    is_sending := false, send_error := none, is_dirty := false, show_cc_bcc := false,
    to_input := "", cc_input := "", bcc_input := "" }

/-- Download state for a single attachment, from
`src/src/model/downloads.rs` (`enum DownloadState`; the `f32` progress is
modelled as `Rat`, `PathBuf` as `String`). -/
inductive DownloadState
  | NotStarted
  | Downloading (progress : Rat)
  | Complete (path : String)
  | Failed (error : String)
deriving DecidableEq

/-- Download tracker, from `src/src/model/downloads.rs`
(`struct DownloadTracker`; the `HashMap<(i64, usize), DownloadState>` is
modelled as an association list). -/
structure DownloadTracker where
  downloads : List ((Int × Nat) × DownloadState)
deriving DecidableEq

/-- Source of the discovered configuration, from
`src/src/config/discovery.rs` (`enum DiscoverySource`). -/
inductive DiscoverySource
  | EnvVar
  | ConfigFile (path : String)
  | LocalhostProbe (port : Nat)
  | NeedsWizard
deriving DecidableEq

/-- Status of one discovery step, from `src/src/config/discovery.rs`. -/
inductive DiscoveryStepStatus
  | Checking
  | Found (url : String)
  | NotFound
  | Failed (msg : String)
deriving DecidableEq

/-- A single step in the discovery process, from
`src/src/config/discovery.rs` (`struct DiscoveryStep`). -/
structure DiscoveryStep where
  name : String
  status : DiscoveryStepStatus
deriving DecidableEq

/-- Result of server discovery, from `src/src/config/discovery.rs`
(`struct DiscoveryResult`). -/
structure DiscoveryResult where
  server_url : Option String
  api_key : Option String
  source : DiscoverySource
  steps : List DiscoveryStep
deriving DecidableEq

/-- Steps of the first-run wizard. The defining file is not in the
snapshot (`src/src/model/state.rs` re-exports `WizardStep` but its copy
in the snapshot predates the type); the variants are the four that
`src/src/update/mod.rs` and `src/src/view/wizard.rs` use. -/
inductive WizardStep
  | Discovering
  | FoundServer
  | ManualEntry
  | Complete
deriving DecidableEq

/-- Settings screen tabs. Like `WizardStep`, the defining file is not in
the snapshot; the variants are the two used by `src/src/update/mod.rs`
and `src/src/view/settings.rs`. -/
inductive SettingsTab
  | Server
  | Display
deriving DecidableEq

/-- Decidable equality for `Except` (Rust `Result` values stored in the
state, e.g. `connection_test_result`). -/
instance {ε α : Type} [DecidableEq ε] [DecidableEq α] : DecidableEq (Except ε α) := fun x y =>
  match x, y with
  | .ok a, .ok b => decidable_of_iff (a = b) (by simp)
  | .error a, .error b => decidable_of_iff (a = b) (by simp)
  | .ok _, .error _ => isFalse (fun h => by cases h)
  | .error _, .ok _ => isFalse (fun h => by cases h)

/-- Root application state. The fields are those of
`src/src/model/state.rs` (`struct AppState`) together with the additional
fields that `src/src/update/mod.rs` and the view layer read and write
(`discovering`, `wizard_step`, `discovery_steps`, `discovery_result`,
`thread`, `sync_loading`, `sync_accounts`, `syncing_account`,
`add_account_email`, `adding_account`, `oauth_response`,
`polling_device_flow`, `removing_account`, `show_remove_modal`,
`settings_server_url`, `settings_api_key`, `settings_tab`,
`testing_connection`, `connection_test_result`, `show_help_modal`,
`compose`, `downloads`); the snapshot's `state.rs` predates them. -/
structure AppState where
  connection_status : ConnectionStatus
  server_url : String
  api_key : String
  first_run : Bool
  discovering : Bool
  wizard_step : WizardStep
  discovery_steps : List DiscoveryStep
  discovery_result : Option DiscoveryResult
  navigation : NavigationStack
  stats : Option StatsResponse
  loading : LoadingState
  aggregates : List AggregateRow
  selected_index : Nat
  sort_field : SortField
  sort_dir : SortDirection
  messages : List MessageSummary
  message_selected_index : Nat
  current_message : Option MessageDetail
  messages_offset : Int
  messages_total : Int
  messages_limit : Int
  filter_type : String
  filter_value : String
  search_query : String
  search_deep_mode : Bool
  search_results : List MessageSummary
  search_selected_index : Nat
  search_total : Int
  is_searching : Bool
  thread : ThreadState
  sync_loading : Bool
  sync_accounts : List AccountSyncStatus
  syncing_account : Option String
  add_account_email : String
  adding_account : Bool
  oauth_response : Option OAuthInitResponse
  polling_device_flow : Bool
  removing_account : Option String
  show_remove_modal : Bool
  settings_server_url : String
  settings_api_key : String
  settings_tab : SettingsTab
  testing_connection : Bool
  connection_test_result : Option (Except String Unit)
  show_help_modal : Bool
  compose : ComposeState
  downloads : DownloadTracker
  selected_messages : Finset Int
  show_delete_modal : Bool
deriving DecidableEq

/-- Events, from `src/src/message.rs` (`enum Message`). This embedding
covers the event subset the reducer-level development reasons about:
every async-result event (the `Result`-carrying variants), the whole
connection / stats / aggregates / messages / sync / account-management /
settings-result / compose-result flows they chain into, pagination,
selection toggling, and the navigation events. Variants whose handlers
only drive presentation-local flows outside the claims (wizard text
input, compose text editing, keyboard dispatch, downloads) are omitted;
each embedded variant is translated one-to-one from the source. -/
inductive Message
  | CheckHealth
  | HealthChecked (result : Except AppError HealthResponse)
  | FetchStats
  | StatsLoaded (result : Except AppError StatsResponse)
  | FetchAggregates (view_type : ViewType)
  | AggregatesLoaded (result : Except AppError AggregateResponse)
  | FetchMessages (filter_type : String) (filter_value : String)
  | MessagesLoaded (result : Except AppError MessageListResponse)
  | MessageDetailLoaded (result : Except AppError MessageDetail)
  | NextPage
  | PreviousPage
  | ThreadLoaded (result : Except AppError (List MessageDetail))
  | SearchLoaded (result : Except AppError SearchResponse)
  | FetchSyncStatus
  | SyncStatusLoaded (result : Except AppError SchedulerStatus)
  | TriggerSync (email : String)
  | SyncTriggered (result : Except AppError SyncTriggerResponse)
  | StartAddAccount
  | OAuthInitiated (result : Except AppError OAuthInitResponse)
  | OpenOAuthBrowser (url : String)
  | PollDeviceFlow
  | DeviceFlowStatusReceived (result : Except AppError DeviceFlowStatus)
  | CancelAddAccount
  | AccountRemoved (result : Except AppError RemoveAccountResponse)
  | ConnectionTested (result : Except AppError HealthResponse)
  | SettingsSaved (result : Except String Unit)
  | ComposeSent (result : Except AppError Unit)
  | ComposeDraftSaved (result : Except AppError Int)
  | ToggleSelection
  | GoBack
  | JumpToBreadcrumb (index : Nat)
deriving DecidableEq

/-- Description of the asynchronous work inside one `Task::perform` of
`src/src/update/mod.rs`: which `ApiClient` endpoint is awaited (or, for
`SaveSettings`, the settings write), with the argument values captured by
the closure. -/
inductive ApiCall
  | health (url : String) (api_key : Option String)
  | stats (url : String) (api_key : Option String)
  | aggregates (url : String) (api_key : Option String)
      (view_type : ViewType) (sort_field : SortField) (sort_dir : SortDirection)
  | messagesFilter (url : String) (api_key : Option String)
      (filter_type : String) (filter_value : String) (offset : Int) (limit : Int)
  | messageDetail (url : String) (api_key : Option String) (id : Int)
  | threadMessages (url : String) (api_key : Option String) (thread_id : String)
  | searchDeep (url : String) (api_key : Option String) (query : String) (offset : Int) (limit : Int)
  | searchFast (url : String) (api_key : Option String) (query : String) (limit : Int)
  | schedulerStatus (url : String) (api_key : Option String)
  | triggerSync (url : String) (api_key : Option String) (email : String)
  | initiateOauth (url : String) (api_key : Option String) (email : String)
  | checkDeviceFlow (url : String) (api_key : Option String) (email : String)
  | removeAccount (url : String) (api_key : Option String) (email : String)
  | saveSettings (settings : Settings)
deriving DecidableEq

/-- The event constructor a `Task::perform`'s result is wrapped into
(the second argument of each `Task::perform` in `src/src/update/mod.rs`). -/
inductive ResultWrap
  | healthChecked
  | statsLoaded
  | aggregatesLoaded
  | messagesLoaded
  | messageDetailLoaded
  | threadLoaded
  | searchLoaded
  | syncStatusLoaded
  | syncTriggered
  | oauthInitiated
  | deviceFlowStatusReceived
  | accountRemoved
  | connectionTested
  | settingsSaved
deriving DecidableEq

/-- One emitted Command: `Task::done m` re-enters the reducer with `m`
synchronously; `Task::perform call wrap` runs `call` on the async
executor and wraps its result into the event tagged by `wrap`. A returned
`Task` is a list of these (`Task::none` = `[]`, `Task::batch` =
concatenation). -/
inductive Cmd
  | done (m : Message)
  | perform (call : ApiCall) (wrap : ResultWrap)
deriving DecidableEq

/-- The `if state.api_key.is_empty() { None } else { Some(...) }` pattern
repeated at every `Task::perform` site of `src/src/update/mod.rs`. -/
def AppState.apiKeyOpt (s : AppState) : Option String :=
  if s.api_key.isEmpty then none else some s.api_key

/-- The reducer `handle`, translated arm by arm from
`src/src/update/mod.rs` for the embedded event subset. Handlers whose
only effect is an external process spawn (`OpenOAuthBrowser`) leave the
state unchanged and return no command, exactly as the source's state /
`Task` behaviour. -/
def handle (s : AppState) : Message → AppState × List Cmd
  | .CheckHealth =>
      ({ s with connection_status := .Connecting },
       [.perform (.health s.server_url s.apiKeyOpt) .healthChecked])
  | .HealthChecked result =>
      match result with
      | .ok _ =>
          ({ s with connection_status := .Connected },
           [.done .FetchStats, .done .FetchSyncStatus])
      | .error e =>
          ({ s with connection_status := .Failed e.toString }, [])
  | .FetchStats =>
      ({ s with loading := .Loading },
       [.perform (.stats s.server_url s.apiKeyOpt) .statsLoaded])
  | .StatsLoaded result =>
      match result with
      | .ok stats => ({ s with stats := some stats, loading := .Idle }, [])
      | .error e => ({ s with loading := .Error e.toString }, [])
  | .FetchAggregates view_type =>
      ({ s with loading := .Loading, selected_index := 0 },
       [.perform (.aggregates s.server_url s.apiKeyOpt view_type s.sort_field s.sort_dir)
          .aggregatesLoaded])
  | .AggregatesLoaded result =>
      match result with
      | .ok response => ({ s with aggregates := response.rows, loading := .Idle }, [])
      | .error e => ({ s with loading := .Error e.toString }, [])
  | .FetchMessages filter_type filter_value =>
      ({ s with loading := .Loading, message_selected_index := 0,
                filter_type := filter_type, filter_value := filter_value },
       [.perform (.messagesFilter s.server_url s.apiKeyOpt filter_type filter_value
                    s.messages_offset s.messages_limit) .messagesLoaded])
  | .MessagesLoaded result =>
      match result with
      | .ok response =>
          ({ s with messages := response.messages, messages_total := response.total,
                    loading := .Idle }, [])
      | .error e => ({ s with loading := .Error e.toString }, [])
  | .MessageDetailLoaded result =>
      match result with
      | .ok detail => ({ s with current_message := some detail, loading := .Idle }, [])
      | .error e => ({ s with loading := .Error e.toString }, [])
  | .NextPage =>
      let new_offset := s.messages_offset + s.messages_limit
      if new_offset < s.messages_total then
        ({ s with messages_offset := new_offset },
         [.done (.FetchMessages s.filter_type s.filter_value)])
      else (s, [])
  | .PreviousPage =>
      if s.messages_offset > 0 then
        ({ s with messages_offset := max (s.messages_offset - s.messages_limit) 0 },
         [.done (.FetchMessages s.filter_type s.filter_value)])
      else (s, [])
  | .ThreadLoaded result =>
      let s := { s with thread := { s.thread with is_loading := false } }
      match result with
      | .ok msgs =>
          match s.navigation.currentView with
          | .Thread thread_id =>
              ({ s with thread := s.thread.load_messages thread_id msgs }, [])
          | _ => (s, [])
      | .error e => ({ s with loading := .Error e.toString }, [])
  | .SearchLoaded result =>
      let s := { s with is_searching := false }
      match result with
      | .ok response =>
          ({ s with search_results := response.messages, search_total := response.total,
                    search_selected_index := 0 }, [])
      | .error e => ({ s with loading := .Error e.toString }, [])
  | .FetchSyncStatus =>
      ({ s with sync_loading := true },
       [.perform (.schedulerStatus s.server_url s.apiKeyOpt) .syncStatusLoaded])
  | .SyncStatusLoaded result =>
      let s := { s with sync_loading := false }
      match result with
      | .ok status => ({ s with sync_accounts := status.accounts }, [])
      | .error e => ({ s with loading := .Error e.toString }, [])
  | .TriggerSync email =>
      ({ s with syncing_account := some email },
       [.perform (.triggerSync s.server_url s.apiKeyOpt email) .syncTriggered])
  | .SyncTriggered result =>
      let s := { s with syncing_account := none }
      match result with
      | .ok _ => (s, [.done .FetchSyncStatus])
      | .error e => ({ s with loading := .Error e.toString }, [])
  | .StartAddAccount =>
      if s.add_account_email.isEmpty then (s, [])
      else
        ({ s with adding_account := true },
         [.perform (.initiateOauth s.server_url s.apiKeyOpt s.add_account_email)
            .oauthInitiated])
  | .OAuthInitiated result =>
      match result with
      | .ok response =>
          let s := { s with oauth_response := some response }
          if response.device_flow then
            ({ s with polling_device_flow := true }, [])
          else
            (s, [.done (.OpenOAuthBrowser response.auth_url)])
      | .error e =>
          ({ s with adding_account := false, loading := .Error e.toString }, [])
  | .OpenOAuthBrowser _ => (s, [])
  | .PollDeviceFlow =>
      if !s.polling_device_flow then (s, [])
      else
        (s, [.perform (.checkDeviceFlow s.server_url s.apiKeyOpt s.add_account_email)
               .deviceFlowStatusReceived])
  | .DeviceFlowStatusReceived result =>
      match result with
      | .ok status =>
          match status.status with
          | .Complete =>
              ({ s with adding_account := false, polling_device_flow := false,
                        oauth_response := none, add_account_email := "" },
               [.done .FetchSyncStatus])
          | .Pending => (s, [])
          | .Expired | .Error =>
              ({ s with adding_account := false, polling_device_flow := false,
                        loading := .Error (status.error.getD "Device flow failed") }, [])
      | .error e =>
          ({ s with polling_device_flow := false, loading := .Error e.toString }, [])
  | .CancelAddAccount =>
      ({ s with adding_account := false, polling_device_flow := false,
                oauth_response := none, add_account_email := "" }, [])
  | .AccountRemoved result =>
      match result with
      | .ok _ => (s, [.done .FetchSyncStatus])
      | .error e => ({ s with loading := .Error e.toString }, [])
  | .ConnectionTested result =>
      ({ s with testing_connection := false,
                connection_test_result := some (match result with
                  | .ok _ => .ok ()
                  | .error e => .error e.toString) }, [])
  | .SettingsSaved result =>
      match result with
      | .ok _ => ({ s with navigation := (s.navigation.pop).1 }, [])
      | .error e => ({ s with loading := .Error ("Failed to save settings: " ++ e) }, [])
  | .ComposeSent result =>
      let s := { s with compose := { s.compose with is_sending := false } }
      match result with
      | .ok _ => ({ s with compose := s.compose.close }, [])
      | .error e =>
          ({ s with compose := { s.compose with send_error := some e.toString } }, [])
  | .ComposeDraftSaved result =>
      match result with
      | .ok _ => ({ s with compose := { s.compose with is_dirty := false } }, [])
      | .error e =>
          ({ s with compose :=
               { s.compose with send_error := some ("Failed to save draft: " ++ e.toString) } },
           [])
  | .ToggleSelection =>
      let message_id : Option Int :=
        match s.navigation.currentView with
        | .Messages _ => (s.messages[s.message_selected_index]?).map (fun m => m.id)
        | .Search => (s.search_results[s.search_selected_index]?).map (fun m => m.id)
        | _ => none
      match message_id with
      | some id =>
          if id ∈ s.selected_messages then
            ({ s with selected_messages := s.selected_messages.erase id }, [])
          else
            ({ s with selected_messages := insert id s.selected_messages }, [])
      | none => (s, [])
  | .GoBack =>
      let s := { s with navigation := (s.navigation.pop).1 }
      match s.navigation.currentView with
      | .Aggregates view_type => (s, [.done (.FetchAggregates view_type)])
      | _ => (s, [])
  | .JumpToBreadcrumb index =>
      let s := { s with navigation := s.navigation.jump_to index }
      match s.navigation.currentView with
      | .Aggregates view_type => (s, [.done (.FetchAggregates view_type)])
      | _ => (s, [])

/-- An empty compose draft (every field at its `Default` value, as in
`ComposeState::default`). -/
def emptyCompose : ComposeState :=
  { is_open := false, mode := .New, reply_to_id := none, from_account := "",
    «to» := [], cc := [], bcc := [], subject := "", body := "", attachments := [],
    is_sending := false, send_error := none, is_dirty := false, show_cc_bcc := false,
    to_input := "", cc_input := "", bcc_input := "" }

/-- A concrete application state used as the base point of witnesses and
counterexamples: fresh navigation, empty caches, default pagination
values (`messages_limit = 50` as in `AppState::new`). -/
def baseState : AppState :=
  { connection_status := .Unknown, server_url := "http://localhost:8080", api_key := "",
    first_run := false, discovering := false, wizard_step := .Complete,
    discovery_steps := [], discovery_result := none,
    navigation := NavigationStack.new, stats := none, loading := .Idle,
    aggregates := [], selected_index := 0, sort_field := .Count, sort_dir := .Desc,
    messages := [], message_selected_index := 0, current_message := none,
    messages_offset := 0, messages_total := 0, messages_limit := 50,
    filter_type := "", filter_value := "",
    search_query := "", search_deep_mode := false, search_results := [],
    search_selected_index := 0, search_total := 0, is_searching := false,
    thread := { thread_id := none, messages := [], expanded := [], focused_index := 0,
                is_loading := false },
    sync_loading := false, sync_accounts := [], syncing_account := none,
    add_account_email := "", adding_account := false, oauth_response := none,
    polling_device_flow := false, removing_account := none, show_remove_modal := false,
    settings_server_url := "", settings_api_key := "", settings_tab := .Server,
    testing_connection := false, connection_test_result := none, show_help_modal := false,
    compose := emptyCompose, downloads := { downloads := [] },
    selected_messages := ∅, show_delete_modal := false }

/-- A concrete OAuth-initiate response with `device_flow = false`
(browser flow). -/
def browserFlowResp : OAuthInitResponse :=
  { auth_url := "https://accounts.example/auth", device_flow := false,
    user_code := none, verification_url := none, poll_interval := none }

/-- A concrete state in the middle of an add-account flow
(`StartAddAccount` has set `adding_account`). -/
def addingState : AppState :=
  { baseState with adding_account := true, add_account_email := "user@example.com" }

/-- Whether a view is one of the two list views `ToggleSelection`
resolves a message id from (`Messages` or `Search`), i.e. the views of
the first two arms of the `match` in the `ToggleSelection` handler. -/
def isMessagesOrSearch : ViewLevel → Bool
  | .Messages _ => true
  | .Search => true
  | _ => false

/-- A concrete paginated state: page size 50 (the `AppState::new`
default), 120 matching messages, offset 0, with a sender filter. -/
def pageState0 : AppState :=
  { baseState with
    messages_total := 120, filter_type := "senders",
    filter_value := "a@example.com" }

/-- State `pageState0` on the last page (offset 100 of 120). -/
def pageStateEnd : AppState :=
  { pageState0 with messages_offset := 100 }

/-- State `pageState0` on the second page (offset 50 of 120). -/
def pageStateMid : AppState :=
  { pageState0 with messages_offset := 50 }

/-- A concrete state whose current view is a messages list with an empty
loaded page (the selected index 0 has no corresponding entry). -/
def msgsViewState : AppState :=
  { baseState with
    navigation := { history := [.Dashboard],
                    current := some (.Messages "Senders: a@example.com") } }

/-- A concrete state whose current view is the search view with no
results loaded. -/
def searchViewState : AppState :=
  { baseState with
    navigation := { history := [.Dashboard], current := some .Search } }

/-! ## Theorems -/

/-- Every single `push`/`pop`/`jump_to` call keeps the `current` field
occupied: `push` always ends by storing `Some(view)`, `pop` and `jump_to`
either store a `Some` or leave the stack untouched. -/
theorem NavigationStack.apply_current_isSome (s : NavigationStack) (op : NavOp)
    (h : s.current.isSome = true) : (s.apply op).current.isSome = true := by
  cases op with
  | push v =>
      cases hc : s.current <;>
        simp [NavigationStack.apply, NavigationStack.push, hc]
  | pop =>
      cases hl : s.history.getLast? <;>
        simp [NavigationStack.apply, NavigationStack.pop, hl, h]
  | jumpTo i =>
      by_cases hi : i < s.history.length <;>
        simp [NavigationStack.apply, NavigationStack.jump_to, hi, h]

/-- C2: starting from `NavigationStack::new()`, after any finite sequence
of `push`/`pop`/`jump_to` calls the `current` view is never absent (the
`Option` field is always `Some`), and `can_go_back()` returns `true`
exactly when the history list is non-empty. -/
theorem nav_stack_invariant (ops : List NavOp) :
    (runNavOps ops).current.isSome = true ∧
    ((runNavOps ops).can_go_back = true ↔ (runNavOps ops).history ≠ []) := by
  constructor
  · have key : ∀ (st : NavigationStack), st.current.isSome = true →
        (ops.foldl NavigationStack.apply st).current.isSome = true := by
      induction ops with
      | nil => exact fun _ h => h
      | cons op rest ih =>
          intro st h
          exact ih (st.apply op) (st.apply_current_isSome op h)
    exact key NavigationStack.new rfl
  · cases hl : (runNavOps ops).history <;>
      simp [NavigationStack.can_go_back, hl]

/-- C6: when `index` is within the history, `jump_to(index)` truncates
the history to its first `index` entries and installs the entry that was
at `index` as the current view; the later history entries and the
previous current view are discarded (they appear nowhere in the result). -/
theorem jump_to_truncates (st : NavigationStack) (i : Nat)
    (h : i < st.history.length) :
    st.jump_to i =
      { history := st.history.take i, current := some (st.history.get ⟨i, h⟩) } := by
  unfold NavigationStack.jump_to
  rw [dif_pos h]

/-- Witness for C6, the spec's own example: history `[A, B, C]` with
current `D`; `jump_to(1)` yields history `[A]` and current `B`. -/
theorem jump_to_truncates_witness :
    NavigationStack.jump_to
        { history := [.Dashboard, .Aggregates .Senders, .Search],
          current := some .Sync } 1 =
      { history := [.Dashboard], current := some (.Aggregates .Senders) } :=
  jump_to_truncates
    { history := [.Dashboard, .Aggregates .Senders, .Search], current := some .Sync }
    1 (by decide)

/-- C9: `jump_to` with an index at or beyond the history length is a
total no-op — the guard `index < self.history.len()` fails, no indexing
is performed (so nothing can panic), and both fields are returned
unchanged. -/
theorem jump_to_out_of_range (st : NavigationStack) (i : Nat)
    (h : st.history.length ≤ i) : st.jump_to i = st := by
  unfold NavigationStack.jump_to
  rw [dif_neg (by omega)]

/-- Witness for C9 at a concrete stack and index. -/
theorem jump_to_out_of_range_witness :
    NavigationStack.jump_to { history := [.Dashboard], current := some .Search } 5 =
      { history := [.Dashboard], current := some .Search } :=
  jump_to_out_of_range { history := [.Dashboard], current := some .Search } 5 (by decide)

/-- C8: the `ViewLevel` enum as defined at
`src/src/model/navigation.rs:9-37` has exactly six cases — `Dashboard`,
`Aggregates`, `SubAggregates`, `Messages`, `MessageDetail`, `Search`.
In particular it has no `Thread`, `Sync`, `Accounts` or `Settings` case,
even though the reducer in `src/src/update/mod.rs` constructs all four
(so the snapshot's enum cannot be the one the reducer compiles against). -/
theorem viewlevel_nav_exactly_six_cases (v : ViewLevelNav) :
    v = .Dashboard ∨ (∃ vt, v = .Aggregates vt) ∨
    (∃ p k t, v = .SubAggregates p k t) ∨ (∃ fd, v = .Messages fd) ∨
    (∃ mid, v = .MessageDetail mid) ∨ v = .Search := by
  cases v with
  | Dashboard => exact Or.inl rfl
  | Aggregates vt => exact Or.inr (Or.inl ⟨vt, rfl⟩)
  | SubAggregates p k t => exact Or.inr (Or.inr (Or.inl ⟨p, k, t, rfl⟩))
  | Messages fd => exact Or.inr (Or.inr (Or.inr (Or.inl ⟨fd, rfl⟩)))
  | MessageDetail mid => exact Or.inr (Or.inr (Or.inr (Or.inr (Or.inl ⟨mid, rfl⟩))))
  | Search => exact Or.inr (Or.inr (Or.inr (Or.inr (Or.inr rfl))))

/-- C1: every async-result event with an `Err(e)` payload records the
error into its screen-local error slot (`LoadingState::Error`, a
connection `Failed`, the settings test-result slot, or the compose
`send_error` slot — together, for several, with the reset of the matching
in-flight flag) and returns the empty command list: no retry, no chained
fetch, no other command. The conjuncts list every `Result`-carrying event
of `src/src/message.rs` and give the full post-state of each `Err` arm. -/
theorem err_arms_record_error_and_emit_nothing (s : AppState) (e : AppError) (es : String) :
    handle s (.HealthChecked (.error e)) =
      ({ s with connection_status := .Failed e.toString }, []) ∧
    handle s (.StatsLoaded (.error e)) = ({ s with loading := .Error e.toString }, []) ∧
    handle s (.AggregatesLoaded (.error e)) = ({ s with loading := .Error e.toString }, []) ∧
    handle s (.MessagesLoaded (.error e)) = ({ s with loading := .Error e.toString }, []) ∧
    handle s (.MessageDetailLoaded (.error e)) =
      ({ s with loading := .Error e.toString }, []) ∧
    handle s (.ThreadLoaded (.error e)) =
      ({ s with thread := { s.thread with is_loading := false },
                loading := .Error e.toString }, []) ∧
    handle s (.SearchLoaded (.error e)) =
      ({ s with is_searching := false, loading := .Error e.toString }, []) ∧
    handle s (.SyncStatusLoaded (.error e)) =
      ({ s with sync_loading := false, loading := .Error e.toString }, []) ∧
    handle s (.SyncTriggered (.error e)) =
      ({ s with syncing_account := none, loading := .Error e.toString }, []) ∧
    handle s (.OAuthInitiated (.error e)) =
      ({ s with adding_account := false, loading := .Error e.toString }, []) ∧
    handle s (.DeviceFlowStatusReceived (.error e)) =
      ({ s with polling_device_flow := false, loading := .Error e.toString }, []) ∧
    handle s (.AccountRemoved (.error e)) = ({ s with loading := .Error e.toString }, []) ∧
    handle s (.ConnectionTested (.error e)) =
      ({ s with testing_connection := false,
                connection_test_result := some (.error e.toString) }, []) ∧
    handle s (.SettingsSaved (.error es)) =
      ({ s with loading := .Error ("Failed to save settings: " ++ es) }, []) ∧
    handle s (.ComposeSent (.error e)) =
      ({ s with compose :=
           { s.compose with is_sending := false, send_error := some e.toString } }, []) ∧
    handle s (.ComposeDraftSaved (.error e)) =
      ({ s with compose :=
           { s.compose with send_error := some ("Failed to save draft: " ++ e.toString) } },
       []) :=
  ⟨rfl, rfl, rfl, rfl, rfl, rfl, rfl, rfl, rfl, rfl, rfl, rfl, rfl, rfl, rfl, rfl⟩

/-- C3: `HealthChecked(Ok(..))` sets the connection status to `Connected`
and returns exactly the two commands re-entering the reducer with
`FetchStats` and `FetchSyncStatus` (a `Task::batch` of two `Task::done`);
`HealthChecked(Err(e))` sets `Failed` with the error's message and
returns no command. -/
theorem health_checked_fans_out :
    (∀ (s : AppState) (response : HealthResponse),
        handle s (.HealthChecked (.ok response)) =
          ({ s with connection_status := .Connected },
           [.done .FetchStats, .done .FetchSyncStatus])) ∧
    (∀ (s : AppState) (e : AppError),
        handle s (.HealthChecked (.error e)) =
          ({ s with connection_status := .Failed e.toString }, [])) :=
  ⟨fun _ _ => rfl, fun _ _ => rfl⟩

/-- C4: the four device-flow poll outcomes. `Pending` leaves the state
exactly unchanged with no command; `Complete` clears all four in-flight
add-account fields (`adding_account`, `polling_device_flow`,
`oauth_response`, `add_account_email`) and emits exactly one
`FetchSyncStatus` refetch; `Expired` and `Error` store the error message
into the screen-local `loading` error slot, return the add-account
machine to idle (`adding_account = false`, `polling_device_flow = false`)
and emit no command. -/
theorem device_flow_poll_outcomes (s : AppState) (err : Option String) :
    handle s (.DeviceFlowStatusReceived (.ok { status := .Pending, error := err })) =
      (s, []) ∧
    handle s (.DeviceFlowStatusReceived (.ok { status := .Complete, error := err })) =
      ({ s with adding_account := false, polling_device_flow := false,
                oauth_response := none, add_account_email := "" },
       [.done .FetchSyncStatus]) ∧
    handle s (.DeviceFlowStatusReceived (.ok { status := .Expired, error := err })) =
      ({ s with adding_account := false, polling_device_flow := false,
                loading := .Error (err.getD "Device flow failed") }, []) ∧
    handle s (.DeviceFlowStatusReceived (.ok { status := .Error, error := err })) =
      ({ s with adding_account := false, polling_device_flow := false,
                loading := .Error (err.getD "Device flow failed") }, []) :=
  ⟨rfl, rfl, rfl, rfl⟩

/-- Counterexample to C5: at a concrete state in the middle of an
add-account flow (`adding_account = true`), handling an OAuth-initiate
success with `device_flow = false` leaves `adding_account` still `true` —
the handler never resets it, so the add-account machine does *not*
return to idle on this event. -/
theorem oauth_browser_keeps_adding_account :
    (handle addingState (.OAuthInitiated (.ok browserFlowResp))).1.adding_account = true ∧
    addingState.adding_account = true :=
  ⟨rfl, rfl⟩

/-- C5 as amended: on an OAuth-initiate success with
`device_flow = false` the reducer stores the response in
`oauth_response` and emits exactly one command, opening the returned auth
URL in the system browser; every other field — in particular the
in-flight `adding_account` flag — is left unchanged (the state does not
return to idle on this event). -/
theorem oauth_browser_flow (s : AppState) (r : OAuthInitResponse)
    (hdf : r.device_flow = false) :
    handle s (.OAuthInitiated (.ok r)) =
      ({ s with oauth_response := some r }, [.done (.OpenOAuthBrowser r.auth_url)]) := by
  simp [handle, hdf]

/-- Witness for the amended C5 at a concrete state and response. -/
theorem oauth_browser_flow_witness :
    handle baseState (.OAuthInitiated (.ok browserFlowResp)) =
      ({ baseState with oauth_response := some browserFlowResp },
       [.done (.OpenOAuthBrowser "https://accounts.example/auth")]) :=
  oauth_browser_flow baseState browserFlowResp rfl

/-- C7: the pagination boundaries and steps. `PreviousPage` at offset 0
is a no-op with no command; `NextPage` with `offset + limit >= total` is
a no-op with no command; otherwise `NextPage` advances the offset by
`limit` and `PreviousPage` (from a positive offset) decreases it by
`limit` clamped at 0, each emitting exactly one `FetchMessages` command
carrying the current filter. -/
theorem pagination_boundaries (s : AppState) :
    (s.messages_offset = 0 → handle s .PreviousPage = (s, [])) ∧
    (s.messages_total ≤ s.messages_offset + s.messages_limit →
        handle s .NextPage = (s, [])) ∧
    (s.messages_offset + s.messages_limit < s.messages_total →
        handle s .NextPage =
          ({ s with messages_offset := s.messages_offset + s.messages_limit },
           [.done (.FetchMessages s.filter_type s.filter_value)])) ∧
    (0 < s.messages_offset →
        handle s .PreviousPage =
          ({ s with messages_offset := max (s.messages_offset - s.messages_limit) 0 },
           [.done (.FetchMessages s.filter_type s.filter_value)])) := by
  refine ⟨?_, ?_, ?_, ?_⟩
  · intro h
    show (if s.messages_offset > 0 then
            ({ s with messages_offset := max (s.messages_offset - s.messages_limit) 0 },
             [Cmd.done (.FetchMessages s.filter_type s.filter_value)])
          else (s, [])) = (s, [])
    rw [if_neg (by omega)]
  · intro h
    show (if s.messages_offset + s.messages_limit < s.messages_total then
            ({ s with messages_offset := s.messages_offset + s.messages_limit },
             [Cmd.done (.FetchMessages s.filter_type s.filter_value)])
          else (s, [])) = (s, [])
    rw [if_neg (by omega)]
  · intro h
    show (if s.messages_offset + s.messages_limit < s.messages_total then
            ({ s with messages_offset := s.messages_offset + s.messages_limit },
             [Cmd.done (.FetchMessages s.filter_type s.filter_value)])
          else (s, [])) = _
    rw [if_pos h]
  · intro h
    show (if s.messages_offset > 0 then
            ({ s with messages_offset := max (s.messages_offset - s.messages_limit) 0 },
             [Cmd.done (.FetchMessages s.filter_type s.filter_value)])
          else (s, [])) = _
    rw [if_pos h]

/-- Witness for C7: all four branches at concrete states (offset 0,
offset 100 of 120, and offset 50 of 120, page size 50). -/
theorem pagination_boundaries_witness :
    handle pageState0 .PreviousPage = (pageState0, []) ∧
    handle pageStateEnd .NextPage = (pageStateEnd, []) ∧
    handle pageState0 .NextPage =
      ({ pageState0 with messages_offset := 50 },
       [.done (.FetchMessages "senders" "a@example.com")]) ∧
    handle pageStateMid .PreviousPage =
      ({ pageStateMid with messages_offset := 0 },
       [.done (.FetchMessages "senders" "a@example.com")]) := by
  refine ⟨(pagination_boundaries pageState0).1 rfl,
          (pagination_boundaries pageStateEnd).2.1 (by decide),
          ?_, ?_⟩
  · simpa using (pagination_boundaries pageState0).2.2.1 (by decide)
  · simpa using (pagination_boundaries pageStateMid).2.2.2 (by decide)

/-- C10: `ToggleSelection` is a complete no-op — the entire state,
including `selected_messages`, is returned unchanged, with no commands —
whenever the current view is neither `Messages` nor `Search`, and also in
a `Messages` or `Search` view whose selected index has no corresponding
entry in the displayed list. -/
theorem toggle_selection_frame (s : AppState) :
    (isMessagesOrSearch s.navigation.currentView = false →
        handle s .ToggleSelection = (s, [])) ∧
    (∀ fd, s.navigation.currentView = .Messages fd →
        s.messages.length ≤ s.message_selected_index →
        handle s .ToggleSelection = (s, [])) ∧
    (s.navigation.currentView = .Search →
        s.search_results.length ≤ s.search_selected_index →
        handle s .ToggleSelection = (s, [])) := by
  refine ⟨?_, ?_, ?_⟩
  · intro h
    cases hv : s.navigation.currentView
    case Messages fd => rw [hv] at h; simp [isMessagesOrSearch] at h
    case Search => rw [hv] at h; simp [isMessagesOrSearch] at h
    all_goals simp [handle, hv]
  · intro fd hv hlen
    have hnone : s.messages[s.message_selected_index]? = none :=
      List.getElem?_eq_none hlen
    simp [handle, hv, hnone]
  · intro hv hlen
    have hnone : s.search_results[s.search_selected_index]? = none :=
      List.getElem?_eq_none hlen
    simp [handle, hv, hnone]

/-- Witness for C10: a dashboard-view state, a messages-view state with
an empty loaded page, and a search-view state with no results. -/
theorem toggle_selection_frame_witness :
    handle baseState .ToggleSelection = (baseState, []) ∧
    handle msgsViewState .ToggleSelection = (msgsViewState, []) ∧
    handle searchViewState .ToggleSelection = (searchViewState, []) :=
  ⟨(toggle_selection_frame baseState).1 rfl,
   (toggle_selection_frame msgsViewState).2.1 "Senders: a@example.com" rfl (by decide),
   (toggle_selection_frame searchViewState).2.2 rfl (by decide)⟩

end MsgVault
